import Mathlib

/-!
Verification of the service-worker caching component of the Podologie Weimar
website (src/sw.js).  The service worker is embedded shallowly: the browser
cache storage becomes an association list of named caches, each cache an
insertion-ordered association list of URL/response pairs, and the network
becomes a function from URLs to optional responses (`none` meaning the fetch
rejects).  Each handler of sw.js is translated into a pure state-passing
function that also reports how many network fetches and cache lookups it
performed, so that the spec's observational claims (for example "no network
fetch is issued") can be stated directly.
-/

namespace SW

/-- An HTTP response as the service worker observes it: status code,
status text and body.  Mirrors the `Response` values flowing through
sw.js (fetched responses and the synthetic 503 responses it constructs). -/
structure Response where
  status : Nat
  statusText : String
  body : String
  deriving DecidableEq, Repr

/-- A single cache namespace: request URL / response pairs in insertion
order (oldest first), as `cache.keys()` enumerates them. -/
abbrev Cache := List (String × Response)

/-- The whole cache storage: named caches in creation order, as
`caches.keys()` enumerates them. -/
abbrev CacheStorage := List (String × Cache)

/-- The network: maps a URL to `some` response, or `none` when the fetch
rejects (offline / network error). -/
abbrev Net := String → Option Response

/-- `cache.match(request)`: first entry for the URL, if any. -/
def cacheMatch (c : Cache) (k : String) : Option Response :=
  (c.find? (fun e => e.1 = k)).map (·.2)

/-- `cache.put(request, response)`: per the Cache API's batch operation,
any existing entry for the key is removed and the new pair is appended. -/
def cachePut (c : Cache) (k : String) (v : Response) : Cache :=
  c.filter (fun e => decide (e.1 ≠ k)) ++ [(k, v)]

/-- Look up a named cache in the storage, empty when absent. -/
def getCache (st : CacheStorage) (name : String) : Cache :=
  ((st.find? (fun e => e.1 = name)).map (·.2)).getD []

/-- Replace (or create at the end, as `caches.open` does) a named cache. -/
def setCache (st : CacheStorage) (name : String) (c : Cache) : CacheStorage :=
  if st.any (fun e => e.1 = name) then
    st.map (fun e => if e.1 = name then (name, c) else e)
  else
    st ++ [(name, c)]

/-- `caches.match(request)`: searches the caches in creation order. -/
def cachesMatch (st : CacheStorage) (k : String) : Option Response :=
  match st with
  | [] => none
  | (_, c) :: rest =>
    match cacheMatch c k with
    | some r => some r
    | none => cachesMatch rest k

/-- `caches.keys()`. -/
def cacheNames (st : CacheStorage) : List String :=
  st.map (·.1)

/-- sw.js line 8: `const CACHE_NAME = 'podologie-weimar-v1.0.0'`. -/
def CACHE_NAME : String := "podologie-weimar-v1.0.0"

/-- sw.js line 9. -/
def STATIC_CACHE : String := CACHE_NAME ++ "-static"

/-- sw.js line 10. -/
def DYNAMIC_CACHE : String := CACHE_NAME ++ "-dynamic"

/-- sw.js lines 13-24: the static asset manifest. -/
def STATIC_ASSETS : List String :=
  ["/", "/index.html", "/styles.css", "/script.js",
   "/images/about1.jpeg", "/images/about2.jpeg", "/images/about3.jpeg",
   "/images/about4.jpeg", "/images/about5.jpeg"]

/-- sw.js line 27. -/
def MAX_DYNAMIC_CACHE_SIZE : Nat := 50

/-- sw.js lines 167-180, `limitCacheSize`: if the cache holds more than
`size` keys, delete `keys.slice(0, keys.length - size)` — the oldest
entries — keeping the most recent `size` entries. -/
def limitCacheSize (c : Cache) (size : Nat) : Cache :=
  if c.length > size then c.drop (c.length - size) else c

/-- The result of one intercepted fetch: the response handed to
`respondWith` (`none` models `respondWith(undefined)`), the cache storage
afterwards, and how many network fetches and cache lookups ran. -/
structure FetchOutcome where
  response : Option Response
  storage : CacheStorage
  fetches : Nat
  lookups : Nat
  deriving DecidableEq, Repr

/-- sw.js lines 104-124, `cacheFirst`: return a cached response if one
matches; otherwise fetch, store a copy in STATIC when the status is
exactly 200, and return the network response; if the fetch rejects,
return a synthetic 503. -/
def cacheFirst (st : CacheStorage) (req : String) (net : Net) : FetchOutcome :=
  match cachesMatch st req with
  | some r => ⟨some r, st, 0, 1⟩
  | none =>
    match net req with
    | some resp =>
      if resp.status = 200 then
        ⟨some resp, setCache st STATIC_CACHE (cachePut (getCache st STATIC_CACHE) req resp),
         1, 1⟩
      else ⟨some resp, st, 1, 1⟩
    | none =>
      ⟨some ⟨503, "Service Unavailable", "Offline content not available"⟩, st, 1, 1⟩

/-- sw.js lines 127-151, `networkFirst`: fetch first; on a status-200
response open DYNAMIC, run `limitCacheSize` and then `put` the copy
(the source issues the `limitCacheSize` call before `cache.put`, and we
model that program order); any other status is returned without touching
the cache; if the fetch rejects, fall back to `caches.match`, else a
synthetic 503. -/
def networkFirst (st : CacheStorage) (req : String) (net : Net) : FetchOutcome :=
  match net req with
  | some resp =>
    if resp.status = 200 then
      let st1 := setCache st DYNAMIC_CACHE (getCache st DYNAMIC_CACHE)
      let trimmed := limitCacheSize (getCache st1 DYNAMIC_CACHE) MAX_DYNAMIC_CACHE_SIZE
      ⟨some resp, setCache st1 DYNAMIC_CACHE (cachePut trimmed req resp), 1, 0⟩
    else ⟨some resp, st, 1, 0⟩
  | none =>
    match cachesMatch st req with
    | some r => ⟨some r, st, 1, 1⟩
    | none =>
      ⟨some ⟨503, "Service Unavailable", "Content not available offline"⟩, st, 1, 1⟩

/-- sw.js lines 81-92, navigation branch of the fetch listener:
`caches.match('/')`, else `fetch(request)`, and if that rejects,
`caches.match('/')` again. -/
def handleNavigation (st : CacheStorage) (reqUrl : String) (net : Net) : FetchOutcome :=
  match cachesMatch st "/" with
  | some r => ⟨some r, st, 0, 1⟩
  | none =>
    match net reqUrl with
    | some resp => ⟨some resp, st, 1, 1⟩
    | none => ⟨cachesMatch st "/", st, 1, 2⟩

/-- True when `pat` occurs inside `s` (JS `String.prototype.includes`). -/
def strContainsSub (s pat : String) : Bool :=
  (s.splitOn pat).length ≥ 2

/-- sw.js lines 154-164, `isStaticAsset`. -/
def isStaticAsset (url : String) : Bool :=
  STATIC_ASSETS.any (fun asset => url.endsWith asset) ||
  strContainsSub url "/images/" ||
  url.endsWith ".css" || url.endsWith ".js" || url.endsWith ".jpg" ||
  url.endsWith ".jpeg" || url.endsWith ".png" || url.endsWith ".gif" ||
  url.endsWith ".webp"

/-- An intercepted request: URL, whether its origin equals the page's
origin, and whether it is a navigation-mode request. -/
structure Request where
  url : String
  sameOrigin : Bool
  navigate : Bool
  deriving DecidableEq, Repr

/-- sw.js lines 71-101, the fetch listener: cross-origin requests pass
through (`none`); navigation requests use the navigation branch; static
assets use cache-first; everything else network-first. -/
def handleFetch (st : CacheStorage) (req : Request) (net : Net) : Option FetchOutcome :=
  if !req.sameOrigin then none
  else if req.navigate then some (handleNavigation st req.url net)
  else if isStaticAsset req.url then some (cacheFirst st req.url net)
  else some (networkFirst st req.url net)

/-- `response.ok`: status in the HTTP success range. -/
def respOk (r : Response) : Bool :=
  200 ≤ r.status && r.status ≤ 299

/-- `cache.addAll(urls)`: fetch every URL; if any fetch rejects or yields
a non-ok status the whole batch rejects (`none`) and nothing is written;
otherwise all pairs are put. -/
def addAll (c : Cache) (urls : List String) (net : Net) : Option Cache :=
  match urls with
  | [] => some c
  | u :: rest =>
    match net u with
    | some r => if respOk r then addAll (cachePut c u r) rest net else none
    | none => none

/-- Outcome of the install handler: the storage afterwards, whether the
promise handed to `event.waitUntil` resolved (so the install step
completed rather than aborting), and whether `skipWaiting` was called. -/
structure InstallResult where
  storage : CacheStorage
  resolved : Bool
  skipWaiting : Bool
  deriving DecidableEq, Repr

/-- sw.js lines 30-46, the install listener: open STATIC, `addAll` the
manifest, then `skipWaiting`; a failure is caught by the final `.catch`,
which only logs — so the `waitUntil` promise resolves either way and
`skipWaiting` is skipped only on the failure path. -/
def installSW (st : CacheStorage) (net : Net) : InstallResult :=
  let st1 := setCache st STATIC_CACHE (getCache st STATIC_CACHE)
  match addAll (getCache st1 STATIC_CACHE) STATIC_ASSETS net with
  | some c => ⟨setCache st1 STATIC_CACHE c, true, true⟩
  | none => ⟨st1, true, false⟩

/-- sw.js lines 49-68, the activate listener: delete every cache whose
name is neither STATIC_CACHE nor DYNAMIC_CACHE. -/
def activateSW (st : CacheStorage) : CacheStorage :=
  st.filter (fun e => e.1 = STATIC_CACHE || e.1 = DYNAMIC_CACHE)

/-- A sequence of dynamic write cycles: each step runs `networkFirst`
against a network that answers the written URL with the given
status-200 response. -/
def runDynWrites (st : CacheStorage) (ws : List (String × Response)) : CacheStorage :=
  ws.foldl (fun s w => (networkFirst s w.1 (fun _ => some w.2)).storage) st

/-- The i-th distinct dynamic URL used in the concrete write sequences. -/
def dynKey (i : Nat) : String := "/api/item" ++ Nat.repr i

/-- The status-200 response written for the i-th dynamic URL. -/
def dynResp (i : Nat) : Response := ⟨200, "OK", "payload" ++ Nat.repr i⟩

/-- The first `n` distinct dynamic write cycles. -/
def dynWritesUpTo (n : Nat) : List (String × Response) :=
  (List.range n).map (fun i => (dynKey i, dynResp i))

/-- Cache storage after `n` distinct dynamic writes from empty storage. -/
def dynAfter (n : Nat) : CacheStorage :=
  runDynWrites [] (dynWritesUpTo n)

/-- A network on which one manifest asset cannot be fetched while every
other URL succeeds. -/
def failNet : Net :=
  fun u => if u = "/styles.css" then none else some ⟨200, "OK", "asset"⟩

/- ### Helper lemmas about the cache model -/

/-- Replacing the entries named `n` in a storage that has one leaves
`(n, c)` as the first entry named `n`. -/
theorem find?_update_of_any (st : CacheStorage) (n : String) (c : Cache)
    (hany : (st.any (fun e => e.1 = n)) = true) :
    (st.map (fun e => if e.1 = n then (n, c) else e)).find? (fun e => e.1 = n) =
      some (n, c) := by
  induction st with
  | nil => simp at hany
  | cons hd tl ih =>
    by_cases h : hd.1 = n
    · simp [List.find?_cons, h]
    · have htl : (tl.any (fun e => e.1 = n)) = true := by
        simpa [h] using hany
      simpa [List.find?_cons, h] using ih htl

/-- A storage with no entry named `n` has no match for `n`. -/
theorem find?_name_none_of_not_any (st : CacheStorage) (n : String)
    (hany : (st.any (fun e => e.1 = n)) = false) :
    st.find? (fun e => e.1 = n) = none := by
  rw [List.find?_eq_none]
  exact List.any_eq_false.mp hany

/-- Reading back the cache just written under a name yields that cache. -/
theorem getCache_setCache (st : CacheStorage) (n : String) (c : Cache) :
    getCache (setCache st n c) n = c := by
  unfold setCache getCache
  by_cases hany : (st.any (fun e => e.1 = n)) = true
  · rw [if_pos hany, find?_update_of_any st n c hany]
    rfl
  · rw [if_neg hany, List.find?_append,
      find?_name_none_of_not_any st n (Bool.not_eq_true _ ▸ hany)]
    simp [List.find?_cons]

/-- `limitCacheSize` never leaves more than `size` entries. -/
theorem limitCacheSize_length_le (c : Cache) (size : Nat) :
    (limitCacheSize c size).length ≤ size := by
  unfold limitCacheSize
  split
  · rename_i h
    rw [List.length_drop]
    omega
  · rename_i h
    omega

/-- A put grows the cache by at most one entry. -/
theorem cachePut_length_le (c : Cache) (k : String) (v : Response) :
    (cachePut c k v).length ≤ c.length + 1 := by
  unfold cachePut
  rw [List.length_append]
  have := List.length_filter_le (fun e : String × Response => decide (e.1 ≠ k)) c
  simp only [List.length_cons, List.length_nil]
  omega

/-- After a put, matching the written key returns the written response. -/
theorem cacheMatch_cachePut_self (c : Cache) (k : String) (v : Response) :
    cacheMatch (cachePut c k v) k = some v := by
  unfold cacheMatch cachePut
  rw [List.find?_append]
  have hnone : (c.filter (fun e => decide (e.1 ≠ k))).find? (fun e => e.1 = k) = none := by
    rw [List.find?_eq_none]
    intro e he
    have := (List.mem_filter.mp he).2
    simpa using this
  rw [hnone]
  simp [List.find?]

/-- A Nodup list whose members all equal one of two values has at most
two elements. -/
theorem length_le_two_of_mem_pair (l : List String) (a b : String)
    (hnd : l.Nodup) (h : ∀ x ∈ l, x = a ∨ x = b) : l.length ≤ 2 := by
  have hsub : l.toFinset ⊆ ({a, b} : Finset String) := by
    intro x hx
    rcases h x (List.mem_toFinset.mp hx) with h1 | h1 <;> simp [h1]
  have hcard := Finset.card_le_card hsub
  rw [List.toFinset_card_of_nodup hnd] at hcard
  calc l.length ≤ ({a, b} : Finset String).card := hcard
    _ ≤ 2 := le_trans (Finset.card_insert_le a {b}) (by simp)

/- ### Claim theorems -/

set_option maxRecDepth 4000

/-- C1 (counterexample): after the 51st distinct write-and-evict cycle of
the network-first strategy, the DYNAMIC namespace holds 51 entries —
one more than MAX_DYNAMIC_CACHE_SIZE — because `limitCacheSize` runs
before `cache.put`, not after it. -/
theorem dynamic_size_exceeds_max_after_51_writes :
    (getCache (dynAfter 51) DYNAMIC_CACHE).length = MAX_DYNAMIC_CACHE_SIZE + 1 := by
  decide

/-- C1 (amended): after every write-and-evict cycle of the network-first
strategy (a fetch that returned status 200), the DYNAMIC namespace holds
at most MAX_DYNAMIC_CACHE_SIZE + 1 entries, from any starting storage. -/
theorem networkFirst_dynamic_size_le_max_succ (st : CacheStorage) (req : String)
    (net : Net) (resp : Response) (h1 : net req = some resp) (h2 : resp.status = 200) :
    (getCache (networkFirst st req net).storage DYNAMIC_CACHE).length ≤
      MAX_DYNAMIC_CACHE_SIZE + 1 := by
  unfold networkFirst
  rw [h1]
  simp only [h2, if_pos]
  rw [getCache_setCache]
  calc (cachePut (limitCacheSize (getCache (setCache st DYNAMIC_CACHE
          (getCache st DYNAMIC_CACHE)) DYNAMIC_CACHE) MAX_DYNAMIC_CACHE_SIZE)
          req resp).length
      ≤ (limitCacheSize (getCache (setCache st DYNAMIC_CACHE
          (getCache st DYNAMIC_CACHE)) DYNAMIC_CACHE) MAX_DYNAMIC_CACHE_SIZE).length + 1 :=
        cachePut_length_le ..
    _ ≤ MAX_DYNAMIC_CACHE_SIZE + 1 :=
        Nat.add_le_add_right (limitCacheSize_length_le ..) 1

/-- C1 (witness): the amended bound at a concrete write into empty storage. -/
theorem networkFirst_dynamic_size_le_max_succ_witness :
    (getCache (networkFirst [] "/api/data"
        (fun _ => some ⟨200, "OK", "d"⟩)).storage DYNAMIC_CACHE).length ≤
      MAX_DYNAMIC_CACHE_SIZE + 1 :=
  networkFirst_dynamic_size_le_max_succ [] "/api/data" _ ⟨200, "OK", "d"⟩ rfl rfl

/-- C2 (counterexample): after writing 51 distinct dynamic keys with
maximum 50, the very first key written is still present in the DYNAMIC
namespace — the claim says it must be absent. -/
theorem first_key_still_present_after_51_writes :
    (cacheMatch (getCache (dynAfter 51) DYNAMIC_CACHE) (dynKey 0)).isSome = true := by
  decide

/-- C2 (amended): eviction is FIFO in insertion order but lags one write
behind: only after writing 52 distinct dynamic keys is the very first key
absent, while the 51 most-recently-written keys are all present. -/
theorem fifo_eviction_after_52_writes :
    cacheMatch (getCache (dynAfter 52) DYNAMIC_CACHE) (dynKey 0) = none ∧
    ((List.range 51).all
      (fun i => (cacheMatch (getCache (dynAfter 52) DYNAMIC_CACHE) (dynKey (i + 1))).isSome))
      = true := by
  decide

/-- C3 (counterexample): with a network on which the manifest asset
`/styles.css` cannot be fetched, the install handler's `waitUntil`
promise still resolves — the install step completes instead of
aborting, because the trailing `.catch` swallows the failure; only
`skipWaiting` is skipped. -/
theorem install_completes_despite_fetch_failure :
    (installSW [] failNet).resolved = true ∧ (installSW [] failNet).skipWaiting = false := by
  decide

/-- C3 (amended): whenever `addAll` of the manifest fails, the install
handler catches the error: the install step still completes (the
`waitUntil` promise resolves), `skipWaiting` is not invoked, no static
entries are written, and there is no retry. -/
theorem install_swallows_addAll_failure (st : CacheStorage) (net : Net)
    (h : addAll (getCache st STATIC_CACHE) STATIC_ASSETS net = none) :
    (installSW st net).resolved = true ∧ (installSW st net).skipWaiting = false ∧
    (installSW st net).storage = setCache st STATIC_CACHE (getCache st STATIC_CACHE) := by
  unfold installSW
  dsimp only
  rw [getCache_setCache, h]
  exact ⟨rfl, rfl, rfl⟩

/-- C3 (witness): the amended behaviour at the concrete failing network. -/
theorem install_swallows_addAll_failure_witness :
    (installSW [] failNet).resolved = true ∧ (installSW [] failNet).skipWaiting = false ∧
    (installSW [] failNet).storage = setCache [] STATIC_CACHE (getCache [] STATIC_CACHE) :=
  install_swallows_addAll_failure [] failNet (by decide)

/-- C4: cache-first returns a matching cached response with zero network
fetches, and on a cache miss with a failing network it returns a
well-formed synthetic response with status 503. -/
theorem cacheFirst_cached_and_offline (st : CacheStorage) (req : String) (net : Net) :
    (∀ r, cachesMatch st req = some r → cacheFirst st req net = ⟨some r, st, 0, 1⟩) ∧
    (cachesMatch st req = none → net req = none →
      cacheFirst st req net =
        ⟨some ⟨503, "Service Unavailable", "Offline content not available"⟩, st, 1, 1⟩) := by
  constructor
  · intro r h
    unfold cacheFirst
    rw [h]
  · intro h1 h2
    unfold cacheFirst
    rw [h1, h2]

/-- C4 (witness): both branches at concrete inputs — a cached stylesheet
served without fetching, and a 503 for an uncached URL when offline. -/
theorem cacheFirst_cached_and_offline_witness :
    cacheFirst [(STATIC_CACHE, [("/styles.css", ⟨200, "OK", "css"⟩)])] "/styles.css"
        (fun _ => none) =
      ⟨some ⟨200, "OK", "css"⟩, [(STATIC_CACHE, [("/styles.css", ⟨200, "OK", "css"⟩)])], 0, 1⟩ ∧
    cacheFirst [] "/styles.css" (fun _ => none) =
      ⟨some ⟨503, "Service Unavailable", "Offline content not available"⟩, [], 1, 1⟩ :=
  ⟨(cacheFirst_cached_and_offline _ _ _).1 _ (by decide),
   (cacheFirst_cached_and_offline _ _ _).2 (by decide) rfl⟩

/-- C5 (counterexample): a network response with status 201 — inside the
HTTP success range — is returned by cache-first on a miss but NOT stored
into the STATIC namespace, because the code stores only on status 200. -/
theorem cacheFirst_201_not_stored :
    (cacheFirst [] "/font.bin" (fun _ => some ⟨201, "Created", "x"⟩)).response =
      some ⟨201, "Created", "x"⟩ ∧
    (cacheFirst [] "/font.bin" (fun _ => some ⟨201, "Created", "x"⟩)).storage = [] ∧
    respOk ⟨201, "Created", "x"⟩ = true := by
  decide

/-- C5 (amended): on a cache miss, cache-first stores a copy into the
STATIC namespace exactly when the network response's status is 200; any
other status (success-range or not) is returned without being stored. -/
theorem cacheFirst_stores_only_status_200 (st : CacheStorage) (req : String) (net : Net)
    (resp : Response) (hmiss : cachesMatch st req = none) (hnet : net req = some resp) :
    (resp.status = 200 →
      cacheMatch (getCache (cacheFirst st req net).storage STATIC_CACHE) req = some resp ∧
      (cacheFirst st req net).response = some resp) ∧
    (resp.status ≠ 200 →
      (cacheFirst st req net).storage = st ∧
      (cacheFirst st req net).response = some resp) := by
  unfold cacheFirst
  rw [hmiss, hnet]
  dsimp only
  constructor
  · intro h200
    rw [if_pos h200]
    exact ⟨by rw [getCache_setCache, cacheMatch_cachePut_self], rfl⟩
  · intro hne
    rw [if_neg hne]
    exact ⟨rfl, rfl⟩

/-- C5 (witness): a concrete status-200 miss is stored and returned. -/
theorem cacheFirst_stores_only_status_200_witness :
    cacheMatch (getCache (cacheFirst [] "/data.bin"
        (fun _ => some ⟨200, "OK", "w"⟩)).storage STATIC_CACHE) "/data.bin" =
      some ⟨200, "OK", "w"⟩ ∧
    (cacheFirst [] "/data.bin" (fun _ => some ⟨200, "OK", "w"⟩)).response =
      some ⟨200, "OK", "w"⟩ :=
  (cacheFirst_stores_only_status_200 [] "/data.bin" _ ⟨200, "OK", "w"⟩
    (by decide) rfl).1 rfl

/-- C6: when the network fetch rejects, network-first returns the
matching cached entry if one exists and otherwise a synthetic 503; in
both cases a well-formed response is produced (the raw error is never
propagated) and the storage is unchanged. -/
theorem networkFirst_offline_fallback (st : CacheStorage) (req : String) (net : Net)
    (h : net req = none) :
    (∀ r, cachesMatch st req = some r → networkFirst st req net = ⟨some r, st, 1, 1⟩) ∧
    (cachesMatch st req = none →
      networkFirst st req net =
        ⟨some ⟨503, "Service Unavailable", "Content not available offline"⟩, st, 1, 1⟩) := by
  constructor
  · intro r hr
    unfold networkFirst
    rw [h, hr]
  · intro hn
    unfold networkFirst
    rw [h, hn]

/-- C6 (witness): both branches at concrete inputs. -/
theorem networkFirst_offline_fallback_witness :
    networkFirst [(DYNAMIC_CACHE, [("/api/news", ⟨200, "OK", "cached"⟩)])] "/api/news"
        (fun _ => none) =
      ⟨some ⟨200, "OK", "cached"⟩, [(DYNAMIC_CACHE, [("/api/news", ⟨200, "OK", "cached"⟩)])],
       1, 1⟩ ∧
    networkFirst [] "/api/news" (fun _ => none) =
      ⟨some ⟨503, "Service Unavailable", "Content not available offline"⟩, [], 1, 1⟩ :=
  ⟨(networkFirst_offline_fallback _ _ _ rfl).1 _ (by decide),
   (networkFirst_offline_fallback _ _ _ rfl).2 (by decide)⟩

/-- C7: a navigation-mode request whose own URL has no cache entry and
whose network fetch would fail is still answered with the response cached
for the root path, not a 503. -/
theorem navigation_offline_serves_root (st : CacheStorage) (url : String) (net : Net)
    (r : Response) (hroot : cachesMatch st "/" = some r)
    (_hmiss : cachesMatch st url = none) (_hnet : net url = none) :
    (handleNavigation st url net).response = some r := by
  unfold handleNavigation
  rw [hroot]

/-- C7 (witness): concrete offline navigation to an uncached URL served
from the cached root document. -/
theorem navigation_offline_serves_root_witness :
    (handleNavigation [(STATIC_CACHE, [("/", ⟨200, "OK", "shell"⟩)])] "/unterseite"
        (fun _ => none)).response = some ⟨200, "OK", "shell"⟩ :=
  navigation_offline_serves_root [(STATIC_CACHE, [("/", ⟨200, "OK", "shell"⟩)])]
    "/unterseite" (fun _ => none) ⟨200, "OK", "shell"⟩ (by decide) (by decide) rfl

/-- C8: activation deletes every namespace whose name is neither the
current STATIC nor the current DYNAMIC identifier, keeps the
current-version namespaces, and (for a storage with distinct names)
leaves at most two live namespaces. -/
theorem activate_deletes_stale_namespaces (st : CacheStorage) :
    (∀ n, n ∈ cacheNames st → n ≠ STATIC_CACHE → n ≠ DYNAMIC_CACHE →
      n ∉ cacheNames (activateSW st)) ∧
    (∀ e, e ∈ st → (e.1 = STATIC_CACHE ∨ e.1 = DYNAMIC_CACHE) → e ∈ activateSW st) ∧
    (∀ n, n ∈ cacheNames (activateSW st) → n = STATIC_CACHE ∨ n = DYNAMIC_CACHE) ∧
    ((cacheNames st).Nodup → (cacheNames (activateSW st)).length ≤ 2) := by
  refine ⟨?_, ?_, ?_, ?_⟩
  · intro n _ h1 h2 hmem
    rcases List.mem_map.mp hmem with ⟨e, he, rfl⟩
    have hcur := (List.mem_filter.mp he).2
    simp only [Bool.or_eq_true, decide_eq_true_eq] at hcur
    rcases hcur with h | h
    · exact h1 h
    · exact h2 h
  · intro e he hcur
    exact List.mem_filter.mpr ⟨he, by rcases hcur with h | h <;> simp [h]⟩
  · intro n hmem
    rcases List.mem_map.mp hmem with ⟨e, he, rfl⟩
    have hcur := (List.mem_filter.mp he).2
    simpa only [Bool.or_eq_true, decide_eq_true_eq] using hcur
  · intro hnd
    have hsl : (cacheNames (activateSW st)).Sublist (cacheNames st) :=
      List.Sublist.map _ (List.filter_sublist st)
    refine length_le_two_of_mem_pair _ STATIC_CACHE DYNAMIC_CACHE
      (hnd.sublist hsl) ?_
    intro n hmem
    rcases List.mem_map.mp hmem with ⟨e, he, rfl⟩
    have hcur := (List.mem_filter.mp he).2
    simpa only [Bool.or_eq_true, decide_eq_true_eq] using hcur

/-- C8 (witness): a stale v0.9.0 namespace is deleted while the current
STATIC namespace survives and at most two namespaces remain. -/
theorem activate_deletes_stale_namespaces_witness :
    "podologie-weimar-v0.9.0-static" ∉
      cacheNames (activateSW [("podologie-weimar-v0.9.0-static", []),
        (STATIC_CACHE, []), (DYNAMIC_CACHE, [])]) ∧
    (STATIC_CACHE, ([] : Cache)) ∈
      activateSW [("podologie-weimar-v0.9.0-static", []),
        (STATIC_CACHE, []), (DYNAMIC_CACHE, [])] ∧
    (cacheNames (activateSW [("podologie-weimar-v0.9.0-static", []),
        (STATIC_CACHE, []), (DYNAMIC_CACHE, [])])).length ≤ 2 :=
  ⟨(activate_deletes_stale_namespaces _).1 _ (by decide) (by decide) (by decide),
   (activate_deletes_stale_namespaces _).2.1 _ (by simp) (by decide),
   (activate_deletes_stale_namespaces _).2.2.2 (by decide)⟩

/-- C9: every same-origin navigation-mode request is answered by the
fetch handler with the cached root document — zero network fetches —
whenever the root path has a cache entry, whatever the requested URL and
whatever the network does. -/
theorem navigation_always_serves_cached_root (st : CacheStorage) (req : Request)
    (net : Net) (r : Response) (hso : req.sameOrigin = true) (hnav : req.navigate = true)
    (hroot : cachesMatch st "/" = some r) :
    handleFetch st req net = some ⟨some r, st, 0, 1⟩ := by
  unfold handleFetch handleNavigation
  rw [hso, hnav, hroot]
  simp

/-- C9 (witness): a concrete deep-link navigation with a broken network
is served from the cached root. -/
theorem navigation_always_serves_cached_root_witness :
    handleFetch [(STATIC_CACHE, [("/", ⟨200, "OK", "shell"⟩)])]
        ⟨"/preise.html", true, true⟩ (fun _ => none) =
      some ⟨some ⟨200, "OK", "shell"⟩, [(STATIC_CACHE, [("/", ⟨200, "OK", "shell"⟩)])], 0, 1⟩ :=
  navigation_always_serves_cached_root [(STATIC_CACHE, [("/", ⟨200, "OK", "shell"⟩)])]
    ⟨"/preise.html", true, true⟩ (fun _ => none) ⟨200, "OK", "shell"⟩ rfl rfl (by decide)

/-- C10: when the network fetch completes with a non-200 status, the
network-first strategy returns that response unchanged, writes nothing
into the DYNAMIC namespace, and performs zero cache lookups — the cache
fallback runs only when the fetch itself rejects. -/
theorem networkFirst_non200_passthrough (st : CacheStorage) (req : String) (net : Net)
    (resp : Response) (h1 : net req = some resp) (h2 : resp.status ≠ 200) :
    networkFirst st req net = ⟨some resp, st, 1, 0⟩ := by
  unfold networkFirst
  rw [h1]
  simp [h2]

/-- C10 (witness): a 404 passes through untouched even though a cached
entry exists for the same URL. -/
theorem networkFirst_non200_passthrough_witness :
    networkFirst [(DYNAMIC_CACHE, [("/api/x", ⟨200, "OK", "old"⟩)])] "/api/x"
        (fun _ => some ⟨404, "Not Found", "nf"⟩) =
      ⟨some ⟨404, "Not Found", "nf"⟩, [(DYNAMIC_CACHE, [("/api/x", ⟨200, "OK", "old"⟩)])],
       1, 0⟩ :=
  networkFirst_non200_passthrough _ "/api/x" _ ⟨404, "Not Found", "nf"⟩ rfl (by decide)

end SW
